import Mathlib

/-!
Verification development for the libtock-rs ambient-light/button API repository.

The repository consists of two source files:
* `src/unittest/src/expected_syscall.rs` — the `ExpectedSyscall` enum used by the
  fake-kernel test harness, and its `panic_wrong_call` failure reporter;
* `src/src/button.rs` — a button driver issuing `command` and `subscribe` syscalls.

The fake kernel dispatcher, the Expectation Queue and the Upcall Registry are
described by the specification but their implementation is not part of the
source tree; those parts are modelled from the spec (sections 3, 4.2, 4.3) and
are marked as such in their doc comments.  Machine integers are embedded as
`Nat`/`Int` with explicit range predicates where the width matters.
-/

/-- Modelled from the spec (section 3, "CommandOutcome / YieldOutcome"):
the outcome of a yield-no-wait, reflecting whether an upcall ran
(delivered → "ran one" = `Upcall`; none ready → "ran none" = `NoUpcall`).
The concrete type lives in the external `libtock_platform` crate
(`YieldNoWaitReturn`), outside this repository's source tree. -/
inductive YieldNoWaitReturn where
  | Upcall
  | NoUpcall
deriving DecidableEq, Repr

/-- Modelled from the spec (sections 3 and 6): a fixed enumeration of
kernel-level error codes, e.g. "out of memory". -/
inductive ErrorCode where
  | OutOfMemory
  | Fail
  | Busy
deriving DecidableEq, Repr

/-- Modelled from the spec (sections 3 and 6): a command outcome carries a
success/failure discriminant and, on success, a small numeric payload.  The
concrete type lives in the external `libtock_platform` crate
(`CommandReturn`), outside this repository's source tree. -/
inductive CommandReturn where
  | Success
  | SuccessU32 (value : Nat)
  | Failure (error_code : ErrorCode)
deriving DecidableEq, Repr

/-- Embeds `ExpectedSyscall` from `src/unittest/src/expected_syscall.rs`.
The variants and their fields mirror the Rust enum: `YieldNoWait` carries an
optional override for the return value, `YieldWait` carries the
`skip_upcall` flag, and `Command` carries the four matched values
`driver_id`, `command_id`, `argument0`, `argument1` (all declared `u32` in
the source, embedded as `Nat` with the `u32` range captured by
`ExpectedSyscall.wf` below) plus an optional override return. -/
inductive ExpectedSyscall where
  | YieldNoWait (override_return : Option YieldNoWaitReturn)
  | YieldWait (skip_upcall : Bool)
  | Command (driver_id : Nat) (command_id : Nat) (argument0 : Nat)
      (argument1 : Nat) (override_return : Option CommandReturn)
deriving DecidableEq, Repr

/-- The `u32` range: the set of values an unsigned 32-bit integer admits. -/
def u32Range (n : Int) : Prop := 0 ≤ n ∧ n < 2 ^ 32

instance (n : Int) : Decidable (u32Range n) := by
  unfold u32Range; infer_instance

/-- The `i32` range: the set of values a signed 32-bit integer admits.  The
spec's syscall ABI (section 6) declares `argument0` and `argument1` of
`command` with this type. -/
def i32Range (n : Int) : Prop := -(2 ^ 31) ≤ n ∧ n < 2 ^ 31

instance (n : Int) : Decidable (i32Range n) := by
  unfold i32Range; infer_instance

/-- Well-formedness of an embedded `ExpectedSyscall`: each `Command` field is
declared `u32` in the source (`expected_syscall.rs` lines 30–33), so a value
is representable exactly when every field lies in the `u32` range. -/
def ExpectedSyscall.wf : ExpectedSyscall → Prop
  | .Command driver_id command_id argument0 argument1 _ =>
      u32Range driver_id ∧ u32Range command_id ∧
      u32Range argument0 ∧ u32Range argument1
  | _ => True

instance (e : ExpectedSyscall) : Decidable e.wf := by
  unfold ExpectedSyscall.wf; cases e <;> infer_instance

/-- Renders an `Option` the way Rust's derived `Debug` does. -/
def optionDebug (f : α → String) : Option α → String
  | none => "None"
  | some v => "Some(" ++ f v ++ ")"

/-- Renders a `YieldNoWaitReturn` the way Rust's derived `Debug` does. -/
def YieldNoWaitReturn.debugFmt : YieldNoWaitReturn → String
  | .Upcall => "Upcall"
  | .NoUpcall => "NoUpcall"

/-- Renders a `CommandReturn` (modelled) in Rust `Debug` style. -/
def CommandReturn.debugFmt : CommandReturn → String
  | .Success => "Success"
  | .SuccessU32 v => "SuccessU32(" ++ Nat.repr v ++ ")"
  | .Failure e =>
      "Failure(" ++ (match e with
        | .OutOfMemory => "OutOfMemory"
        | .Fail => "Fail"
        | .Busy => "Busy") ++ ")"

/-- Renders an `ExpectedSyscall` the way Rust's `#[derive(Debug)]` renders the
enum in `expected_syscall.rs`: variant name followed by named fields in
declaration order. -/
def ExpectedSyscall.debugFmt : ExpectedSyscall → String
  | .YieldNoWait override_return =>
      "YieldNoWait \x7b override_return: " ++
        optionDebug YieldNoWaitReturn.debugFmt override_return ++ " \x7d"
  | .YieldWait skip_upcall =>
      "YieldWait \x7b skip_upcall: " ++
        (if skip_upcall then "true" else "false") ++ " \x7d"
  | .Command driver_id command_id argument0 argument1 override_return =>
      "Command \x7b driver_id: " ++ Nat.repr driver_id ++
        ", command_id: " ++ Nat.repr command_id ++
        ", argument0: " ++ Nat.repr argument0 ++
        ", argument1: " ++ Nat.repr argument1 ++
        ", override_return: " ++
        optionDebug CommandReturn.debugFmt override_return ++ " \x7d"

/-- Embeds `ExpectedSyscall::panic_wrong_call` from
`src/unittest/src/expected_syscall.rs` (lines 48–54).  The Rust function has
return type `!`: it always panics with the format string
`"Expected system call {:?}, but {} was called instead."`.  The embedding
returns the panic message; the never-returns behavior is captured by the
dispatcher below, which produces a fatal `Failure` (never a normal result)
whenever this reporter fires. -/
def ExpectedSyscall.panic_wrong_call (e : ExpectedSyscall) (called : String) :
    String :=
  "Expected system call " ++ e.debugFmt ++ ", but " ++ called ++
    " was called instead."

/-- Modelled from the spec (sections 3 and 4.3): a Pending Upcall record.
`register` stores a pending, not-yet-ready entry (`ready = false`,
`args = []`); `mark_ready` transitions it to ready and records the upcall
arguments; the callback target is modelled as an opaque identifier. -/
structure PendingUpcall where
  driver_id : Nat
  slot : Nat
  callback_target : Nat
  ready : Bool
  args : List Nat
deriving DecidableEq, Repr

/-- Modelled from the spec (sections 3, 4.1, 4.3): the state of the fake
kernel.  `expectations` is the Expectation Queue (FIFO); `upcalls` is the
Upcall Registry in registration order; `delivered` is the log of callback
invocations performed so far (appending to it models invoking the callback
target with its recorded arguments); `consumed` is the log of Expectations
popped from the queue, in consumption order. -/
structure FakeKernel where
  expectations : List ExpectedSyscall
  upcalls : List PendingUpcall
  delivered : List PendingUpcall
  consumed : List ExpectedSyscall
deriving DecidableEq, Repr

/-- Modelled from the spec (section 4.3, `deliver_one`): select the first
ready entry, oldest first, returning it together with the registry with that
entry removed; `none` when no entry is ready. -/
def deliverFirstReady : List PendingUpcall →
    Option (PendingUpcall × List PendingUpcall)
  | [] => none
  | u :: rest =>
      if u.ready then some (u, rest)
      else match deliverFirstReady rest with
        | none => none
        | some (d, rest2) => some (d, u :: rest2)

/-- Modelled from the spec (section 4.3): `deliver_one` — deliver at most one
ready upcall: invoke its callback (log it in `delivered`) and remove it from
the registry; report whether anything was delivered. -/
def deliverOne (k : FakeKernel) : Bool × FakeKernel :=
  match deliverFirstReady k.upcalls with
  | none => (false, k)
  | some (u, rest) =>
      (true, { k with upcalls := rest, delivered := k.delivered ++ [u] })

/-- A real syscall issued by the driver-under-test, as seen by the
dispatcher (the two yield classes and `command`, matching the implemented
`ExpectedSyscall` variants). -/
inductive Syscall where
  | yield_no_wait
  | yield_wait
  | command (driver_id : Nat) (command_id : Nat) (argument0 : Nat)
      (argument1 : Nat)
deriving DecidableEq, Repr

/-- The name of a syscall, used by the failure reporter. -/
def Syscall.name : Syscall → String
  | .yield_no_wait => "yield-no-wait"
  | .yield_wait => "yield-wait"
  | .command _ _ _ _ => "command"

/-- The value returned to the driver by a successful dispatch. -/
inductive SyscallReturn where
  | yieldRet (r : YieldNoWaitReturn)
  | unitRet
  | commandRet (r : CommandReturn)
deriving DecidableEq, Repr

/-- Modelled from the spec (sections 4.2, 4.4, 7): the fatal failures of the
fake kernel.  Every failure aborts the test; each carries what the Failure
Reporter needs to name expected versus actual. -/
inductive Failure where
  | exhausted (called : String)
  | wrongCall (expected : ExpectedSyscall) (called : String)
  | commandMismatch (expected : Nat × Nat × Nat × Nat)
      (actual : Nat × Nat × Nat × Nat)
  | deadlock
deriving DecidableEq, Repr

/-- Renders a command-argument tuple for failure messages. -/
def tupleStr : Nat × Nat × Nat × Nat → String
  | (d, c, a0, a1) =>
      "(driver_id=" ++ Nat.repr d ++ ", command_id=" ++ Nat.repr c ++
        ", argument0=" ++ Nat.repr a0 ++ ", argument1=" ++ Nat.repr a1 ++ ")"

/-- Modelled from the spec (section 4.4): the Failure Reporter's
deterministic, human-readable description of each fatal failure, naming the
expected and the actual call.  The `wrongCall` case is the message of
`ExpectedSyscall::panic_wrong_call` from the source. -/
def failureMessage : Failure → String
  | .exhausted called =>
      "Expectation queue exhausted, but " ++ called ++ " was called."
  | .wrongCall expected called => expected.panic_wrong_call called
  | .commandMismatch expected actual =>
      "Expected command" ++ tupleStr expected ++ ", but command" ++
        tupleStr actual ++ " was called instead."
  | .deadlock =>
      "yield-wait with no ready upcall and skip_upcall=false: deadlock."

/-- Modelled from the spec (section 4.2): the default success outcome a
matched `command` returns when no override is present. -/
def defaultCommandReturn : CommandReturn := .Success

/-- Modelled from the spec (section 4.2): the Fake Kernel Dispatcher.  Pop
the head Expectation (an empty queue is itself a mismatch); check the call's
class against the Expectation's; for `command`, check the four argument
fields exactly; deliver upcalls on yields (honoring `skip_upcall`); return
the override when present, otherwise the derived/default outcome.  Every
mismatch is fatal (`Failure`), never recovered. -/
def dispatch (k : FakeKernel) (call : Syscall) :
    Except Failure (SyscallReturn × FakeKernel) :=
  match k.expectations with
  | [] => .error (.exhausted call.name)
  | e :: rest =>
      let k1 : FakeKernel :=
        { k with expectations := rest, consumed := k.consumed ++ [e] }
      match call, e with
      | .yield_no_wait, .YieldNoWait override_return =>
          let (ran, k2) := deliverOne k1
          let ret := match override_return with
            | some r => r
            | none => if ran then .Upcall else .NoUpcall
          .ok (.yieldRet ret, k2)
      | .yield_wait, .YieldWait skip_upcall =>
          if skip_upcall then .ok (.unitRet, k1)
          else match deliverFirstReady k1.upcalls with
            | none => .error .deadlock
            | some (u, rest2) =>
                .ok (.unitRet,
                  { k1 with upcalls := rest2,
                            delivered := k1.delivered ++ [u] })
      | .command d c a0 a1, .Command ed ec ea0 ea1 override_return =>
          if d = ed ∧ c = ec ∧ a0 = ea0 ∧ a1 = ea1 then
            .ok (.commandRet (override_return.getD defaultCommandReturn), k1)
          else .error (.commandMismatch (ed, ec, ea0, ea1) (d, c, a0, a1))
      | c, e => .error (.wrongCall e c.name)

/-- Runs a sequence of syscalls through the dispatcher, stopping at the
first fatal failure. -/
def runCalls (k : FakeKernel) : List Syscall → Except Failure FakeKernel
  | [] => .ok k
  | c :: cs =>
      match dispatch k c with
      | .error f => .error f
      | .ok (_, k2) => runCalls k2 cs

/-- Embeds `DRIVER_NUMBER` from `src/src/button.rs` (line 7): `0x00003`. -/
def DRIVER_NUMBER : Nat := 0x00003

namespace command_nr

/-- Embeds `command_nr::COUNT` from `src/src/button.rs`. -/
def COUNT : Nat := 0

/-- Embeds `command_nr::ENABLE_INTERRUPT` from `src/src/button.rs`. -/
def ENABLE_INTERRUPT : Nat := 1

/-- Embeds `command_nr::DISABLE_INTERRUPT` from `src/src/button.rs`. -/
def DISABLE_INTERRUPT : Nat := 2

/-- Embeds `command_nr::READ` from `src/src/button.rs`. -/
def READ : Nat := 3

end command_nr

/-- Embeds `subscribe_nr::SUBSCRIBE_CALLBACK` from `src/src/button.rs`. -/
def SUBSCRIBE_CALLBACK : Nat := 0

/-- Modelled from the spec (section 7): the success return code of the
external `result` module (`result::SUCCESS`), whose definition is not in the
source tree; in the Tock ABI it is the code 0. -/
def SUCCESS : Int := 0

/-- Modelled from the spec (sections 7 and 8, the out-of-memory injected
failure): the `result::ENOMEM` return code of the external `result` module,
whose definition is not in the source tree; in the Tock ABI it is -9.  Only
its distinctness from `SUCCESS` matters to the driver logic. -/
def ENOMEM : Int := -9

/-- Embeds `TockValue` from the external `result` module, as used by
`src/src/button.rs`: a driver-level `Expected` error or an `Unexpected` raw
return code. -/
inductive TockValue (E : Type) where
  | Expected (e : E)
  | Unexpected (code : Int)
deriving DecidableEq, Repr

deriving instance DecidableEq for Except

/-- Embeds `TockResult<T, E> = Result<T, TockValue<E>>`. -/
def TockResult (T E : Type) := Except (TockValue E) T

instance [DecidableEq T] [DecidableEq E] : DecidableEq (TockResult T E) := by
  unfold TockResult; infer_instance

/-- Embeds `ButtonsError` from `src/src/button.rs` (lines 25–29). -/
inductive ButtonsError where
  | NotSupported
  | SubscriptionFailed
deriving DecidableEq, Repr

/-- Embeds `ButtonError` from `src/src/button.rs` (lines 207–210). -/
inductive ButtonError where
  | ActivationFailed
deriving DecidableEq, Repr

/-- Embeds `ButtonState` from `src/src/button.rs` (lines 91–95). -/
inductive ButtonState where
  | Pressed
  | Released
deriving DecidableEq, Repr

/-- Embeds `impl From<usize> for ButtonState` from `src/src/button.rs`
(lines 97–105): 0 maps to `Released`, 1 to `Pressed`, and every other input
hits `unreachable!()`, embedded as `none` (a panic). -/
def ButtonState.fromUsize (state : Nat) : Option ButtonState :=
  match state with
  | 0 => some .Released
  | 1 => some .Pressed
  | _ => none

/-- Embeds the local `button_callback` function of `Buttons::with_callback`
in `src/src/button.rs` (lines 39–47): the raw upcall arguments
`(button_num, state)` are forwarded to the user callback as
`(button_num, state.into())`.  The embedding returns the pair the user
callback observes (`none` when the `From` conversion panics). -/
def button_callback (button_num : Nat) (state : Nat) :
    Option (Nat × ButtonState) :=
  (ButtonState.fromUsize state).map (fun st => (button_num, st))

/-- Embeds `Buttons` from `src/src/button.rs` (lines 20–23); the callback is
not part of the state the claims inspect. -/
structure Buttons where
  count : Nat
deriving DecidableEq, Repr

/-- Embeds `Buttons::with_callback` from `src/src/button.rs` (lines 38–75).
The kernel is abstracted by the two return codes the function can observe:
`command_count`, the `isize` returned by `command(DRIVER_NUMBER, COUNT, 0, 0)`,
and `subscribe_return`, the `isize` returned by the `subscribe` call.  The
`Bool` component records whether the `subscribe` syscall was issued at all. -/
def Buttons.with_callback (command_count : Int) (subscribe_return : Int) :
    Bool × TockResult Buttons ButtonsError :=
  if command_count ≤ 1 then
    (false, .error (.Expected .NotSupported))
  else
    (true,
      if subscribe_return = SUCCESS then .ok ⟨command_count.toNat⟩
      else if subscribe_return = ENOMEM then
        .error (.Expected .SubscriptionFailed)
      else .error (.Unexpected subscribe_return))

/-- Embeds `Button` from `src/src/button.rs` (lines 203–205): a handle on an
enabled button, remembering its number. -/
structure Button where
  button_num : Nat
deriving DecidableEq, Repr

/-- Embeds `ButtonHandle::enable` from `src/src/button.rs` (lines 168–183).
The kernel is abstracted as the function `command` mapping the four syscall
arguments to the `isize` return code.  The first component is the exact
syscall issued (its four arguments); the second is the driver's result:
`SUCCESS` yields `Ok(Button)`, `ENOMEM` yields
`Err(TockValue::Expected(ButtonError::ActivationFailed))`, anything else
yields `Err(TockValue::Unexpected(code))`. -/
def ButtonHandle.enable (button_num : Nat)
    (command : Nat → Nat → Int → Int → Int) :
    (Nat × Nat × Int × Int) × TockResult Button ButtonError :=
  let return_code :=
    command DRIVER_NUMBER command_nr.ENABLE_INTERRUPT (button_num : Int) 0
  ((DRIVER_NUMBER, command_nr.ENABLE_INTERRUPT, (button_num : Int), 0),
    if return_code = SUCCESS then .ok ⟨button_num⟩
    else if return_code = ENOMEM then .error (.Expected .ActivationFailed)
    else .error (.Unexpected return_code))

/-- Models the Rust cast `as usize` applied to an `isize` on the 64-bit test
host: reinterpretation modulo 2^64. -/
def usizeOfIsize (r : Int) : Nat := (r % (2 : Int) ^ 64).toNat

/-- Embeds `Button::read` from `src/src/button.rs` (lines 212–223): issue
`command(DRIVER_NUMBER, READ, button_num, 0)` and convert the returned
`isize`, cast `as usize`, through `ButtonState::from` with no guard (`none`
models the `unreachable!()` panic).  The kernel is abstracted as the
function `command`. -/
def Button.read (b : Button) (command : Nat → Nat → Int → Int → Int) :
    Option ButtonState :=
  ButtonState.fromUsize
    (usizeOfIsize (command DRIVER_NUMBER command_nr.READ (b.button_num : Int) 0))

/-- The syscall classes of the spec's data model (section 3, `SyscallKind`),
restricted to the classes implemented in the source. -/
inductive SyscallClass where
  | yieldNoWaitClass
  | yieldWaitClass
  | commandClass
deriving DecidableEq, Repr

/-- The class of a real syscall. -/
def Syscall.kind : Syscall → SyscallClass
  | .yield_no_wait => .yieldNoWaitClass
  | .yield_wait => .yieldWaitClass
  | .command _ _ _ _ => .commandClass

/-- The class an Expectation anticipates. -/
def ExpectedSyscall.kind : ExpectedSyscall → SyscallClass
  | .YieldNoWait _ => .yieldNoWaitClass
  | .YieldWait _ => .yieldWaitClass
  | .Command _ _ _ _ _ => .commandClass

/-! ## Helper lemmas about the dispatcher -/

theorem deliverOne_preserves_queue (k : FakeKernel) :
    (deliverOne k).2.expectations = k.expectations ∧
    (deliverOne k).2.consumed = k.consumed := by
  unfold deliverOne
  cases hD : deliverFirstReady k.upcalls with
  | none => simp
  | some p => obtain ⟨u, rest⟩ := p; simp

theorem dispatch_ok_pops {k k' : FakeKernel} {c : Syscall} {r : SyscallReturn}
    (h : dispatch k c = .ok (r, k')) :
    ∃ e rest, k.expectations = e :: rest ∧ k'.expectations = rest ∧
      k'.consumed = k.consumed ++ [e] := by
  unfold dispatch at h
  cases hE : k.expectations with
  | nil => rw [hE] at h; simp at h
  | cons e rest =>
      rw [hE] at h
      refine ⟨e, rest, rfl, ?_⟩
      cases c with
      | yield_no_wait =>
          cases e with
          | YieldNoWait ov =>
              dsimp only at h
              rw [Except.ok.injEq, Prod.mk.injEq] at h
              obtain ⟨-, hk⟩ := h
              subst hk
              obtain ⟨h1, h2⟩ := deliverOne_preserves_queue
                { k with expectations := rest,
                         consumed := k.consumed ++ [.YieldNoWait ov] }
              exact ⟨by rw [h1], by rw [h2]⟩
          | YieldWait sk => simp at h
          | Command ed ec ea0 ea1 ov => simp at h
      | yield_wait =>
          cases e with
          | YieldNoWait ov => simp at h
          | YieldWait sk =>
              dsimp only at h
              split at h
              · rw [Except.ok.injEq, Prod.mk.injEq] at h
                obtain ⟨-, hk⟩ := h
                subst hk
                exact ⟨rfl, rfl⟩
              · cases hD : deliverFirstReady k.upcalls with
                | none => rw [hD] at h; simp at h
                | some p =>
                    obtain ⟨u, rest2⟩ := p
                    rw [hD] at h
                    rw [Except.ok.injEq, Prod.mk.injEq] at h
                    obtain ⟨-, hk⟩ := h
                    subst hk
                    exact ⟨rfl, rfl⟩
          | Command ed ec ea0 ea1 ov => simp at h
      | command d cc a0 a1 =>
          cases e with
          | YieldNoWait ov => simp at h
          | YieldWait sk => simp at h
          | Command ed ec ea0 ea1 ov =>
              dsimp only at h
              split at h
              · rw [Except.ok.injEq, Prod.mk.injEq] at h
                obtain ⟨-, hk⟩ := h
                subst hk
                exact ⟨rfl, rfl⟩
              · simp at h

theorem runCalls_ok_spec {cs : List Syscall} {k k' : FakeKernel}
    (h : runCalls k cs = .ok k') :
    k'.expectations = k.expectations.drop cs.length ∧
    k'.consumed = k.consumed ++ k.expectations.take cs.length := by
  induction cs generalizing k with
  | nil =>
      unfold runCalls at h
      rw [Except.ok.injEq] at h
      subst h
      simp
  | cons c cs ih =>
      unfold runCalls at h
      cases hD : dispatch k c with
      | error f => rw [hD] at h; simp at h
      | ok p =>
          obtain ⟨r, k2⟩ := p
          rw [hD] at h
          obtain ⟨e, rest, hE, hExp, hCons⟩ := dispatch_ok_pops hD
          obtain ⟨ih1, ih2⟩ := ih h
          constructor
          · rw [ih1, hExp, hE]
            simp
          · rw [ih2, hCons, hExp, hE]
            simp

/-- C1: for every sequence of Expectations pushed to the queue and every
sequence of syscalls issued in order that the dispatcher accepts, the i-th
call consumes exactly the i-th pushed Expectation (the consumption log after
`j` calls is the first `j` pushed Expectations, in order — strict FIFO, no
look-ahead or reordering, each Expectation consumed at most once); issuing
fewer calls than Expectations leaves the queue non-empty, and once the queue
is exhausted one further call of any kind fails fatally. -/
theorem fifo_consumption (es : List ExpectedSyscall) (us : List PendingUpcall)
    (cs : List Syscall) (cExtra : Syscall) (k' : FakeKernel)
    (h : runCalls ⟨es, us, [], []⟩ cs = .ok k') :
    k'.consumed = es.take cs.length ∧
    k'.expectations = es.drop cs.length ∧
    (cs.length < es.length → k'.expectations ≠ []) ∧
    (cs.length = es.length →
      dispatch k' cExtra = .error (.exhausted cExtra.name)) := by
  obtain ⟨h1, h2⟩ := runCalls_ok_spec h
  dsimp only at h1 h2
  rw [List.nil_append] at h2
  refine ⟨h2, h1, ?_, ?_⟩
  · intro hlt
    rw [h1]
    intro hnil
    rw [List.drop_eq_nil_iff] at hnil
    omega
  · intro heq
    have hempty : k'.expectations = [] := by
      rw [h1, heq, List.drop_length]
    unfold dispatch
    rw [hempty]

/-- Witness for C1: two Expectations, the two matching calls in order; the
consumption log is exactly the pushed sequence, the queue ends empty, and a
third call fails with queue exhaustion. -/
theorem fifo_consumption_witness :
    (FakeKernel.mk [] [] []
        [.Command 3 1 0 0 none, .YieldWait true]).consumed =
      ([ExpectedSyscall.Command 3 1 0 0 none,
        ExpectedSyscall.YieldWait true]).take 2 ∧
    (FakeKernel.mk [] [] []
        [.Command 3 1 0 0 none, .YieldWait true]).expectations =
      ([ExpectedSyscall.Command 3 1 0 0 none,
        ExpectedSyscall.YieldWait true]).drop 2 ∧
    ((2 : Nat) < 2 →
      (FakeKernel.mk [] [] []
        [.Command 3 1 0 0 none, .YieldWait true]).expectations ≠ []) ∧
    ((2 : Nat) = 2 →
      dispatch (FakeKernel.mk [] [] []
          [.Command 3 1 0 0 none, .YieldWait true]) .yield_no_wait =
        .error (.exhausted Syscall.yield_no_wait.name)) :=
  fifo_consumption [.Command 3 1 0 0 none, .YieldWait true] []
    [.command 3 1 0 0, .yield_wait] .yield_no_wait
    (FakeKernel.mk [] [] [] [.Command 3 1 0 0 none, .YieldWait true]) rfl

/-- C2: a `command` call against a head `Command` Expectation succeeds
exactly when all four fields (`driver_id`, `command_id`, `argument0`,
`argument1`) are equal field-wise (no wildcards), returning the override or
the default success outcome; on any field mismatch it fails fatally with a
`Failure` carrying both tuples, whose report names the expected and the
actual tuple; and whether the call matches is independent of the
`override_return` field. -/
theorem command_argument_exactness (ed ec ea0 ea1 ad ac aa0 aa1 : Nat)
    (ov ov' : Option CommandReturn) (rest : List ExpectedSyscall)
    (us dl : List PendingUpcall) (cl : List ExpectedSyscall) :
    (dispatch ⟨.Command ed ec ea0 ea1 ov :: rest, us, dl, cl⟩
        (.command ad ac aa0 aa1) =
      if ad = ed ∧ ac = ec ∧ aa0 = ea0 ∧ aa1 = ea1 then
        .ok (.commandRet (ov.getD defaultCommandReturn),
          ⟨rest, us, dl, cl ++ [.Command ed ec ea0 ea1 ov]⟩)
      else .error (.commandMismatch (ed, ec, ea0, ea1) (ad, ac, aa0, aa1))) ∧
    ((dispatch ⟨.Command ed ec ea0 ea1 ov :: rest, us, dl, cl⟩
        (.command ad ac aa0 aa1)).isOk ↔
      (dispatch ⟨.Command ed ec ea0 ea1 ov' :: rest, us, dl, cl⟩
        (.command ad ac aa0 aa1)).isOk) ∧
    (∃ pre mid post,
      failureMessage
          (.commandMismatch (ed, ec, ea0, ea1) (ad, ac, aa0, aa1)) =
        pre ++ tupleStr (ed, ec, ea0, ea1) ++ mid ++
          tupleStr (ad, ac, aa0, aa1) ++ post) := by
  refine ⟨?_, ?_, ?_⟩
  · by_cases hc : ad = ed ∧ ac = ec ∧ aa0 = ea0 ∧ aa1 = ea1 <;>
      simp [dispatch, hc]
  · by_cases hc : ad = ed ∧ ac = ec ∧ aa0 = ea0 ∧ aa1 = ea1 <;>
      simp [dispatch, hc, Except.isOk, Except.toBool]
  · exact ⟨"Expected command", ", but command", " was called instead.", rfl⟩

/-- C3: when an Expectation carries an `override_return`, the outcome
returned to the driver is that override verbatim: a `YieldNoWait` override
is returned even though upcall delivery still takes place in the same call
(the resulting state is exactly the post-delivery state), and a matching
`Command` with an override returns it in place of the default; when
`override_return` is absent on `YieldNoWait`, the returned outcome reflects
whether an upcall was delivered. -/
theorem override_precedence (v : YieldNoWaitReturn) (r : CommandReturn)
    (d c a0 a1 : Nat) (rest : List ExpectedSyscall)
    (us dl : List PendingUpcall) (cl : List ExpectedSyscall) :
    dispatch ⟨.YieldNoWait (some v) :: rest, us, dl, cl⟩ .yield_no_wait =
      .ok (.yieldRet v,
        (deliverOne ⟨rest, us, dl, cl ++ [.YieldNoWait (some v)]⟩).2) ∧
    dispatch ⟨.YieldNoWait none :: rest, us, dl, cl⟩ .yield_no_wait =
      .ok (.yieldRet
          (if (deliverOne ⟨rest, us, dl, cl ++ [.YieldNoWait none]⟩).1
            then .Upcall else .NoUpcall),
        (deliverOne ⟨rest, us, dl, cl ++ [.YieldNoWait none]⟩).2) ∧
    dispatch ⟨.Command d c a0 a1 (some r) :: rest, us, dl, cl⟩
        (.command d c a0 a1) =
      .ok (.commandRet r,
        ⟨rest, us, dl, cl ++ [.Command d c a0 a1 (some r)]⟩) := by
  refine ⟨?_, ?_, ?_⟩
  · simp [dispatch]
  · simp [dispatch]
  · simp [dispatch, Option.getD]

/-- C4: a `yield_wait` call whose matching `YieldWait` Expectation has
`skip_upcall = true` invokes no callback (the delivery log is unchanged) and
leaves the Upcall Registry exactly as it was, whatever its state — every
ready Pending Upcall remains registered and ready for a later call. -/
theorem skip_upcall_respected (rest : List ExpectedSyscall)
    (us dl : List PendingUpcall) (cl : List ExpectedSyscall) :
    dispatch ⟨.YieldWait true :: rest, us, dl, cl⟩ .yield_wait =
      .ok (.unitRet, ⟨rest, us, dl, cl ++ [.YieldWait true]⟩) := by
  simp [dispatch]

/-- C5: `ButtonHandle::enable` for button number `n` issues exactly the
syscall `command(3, 1, n, 0)` (driver 3, command 1 = ENABLE_INTERRUPT,
argument0 = n, argument1 = 0) and maps the kernel's return code: `SUCCESS`
yields `Ok(Button)`, `ENOMEM` yields
`Err(TockValue::Expected(ButtonError::ActivationFailed))`, and any other
code yields `Err(TockValue::Unexpected(code))`. -/
theorem enable_syscall_and_error_mapping (n : Nat)
    (command : Nat → Nat → Int → Int → Int) :
    (ButtonHandle.enable n command).1 = (3, 1, (n : Int), 0) ∧
    (command 3 1 (n : Int) 0 = SUCCESS →
      (ButtonHandle.enable n command).2 = .ok ⟨n⟩) ∧
    (command 3 1 (n : Int) 0 = ENOMEM →
      (ButtonHandle.enable n command).2 =
        .error (.Expected .ActivationFailed)) ∧
    (command 3 1 (n : Int) 0 ≠ SUCCESS →
      command 3 1 (n : Int) 0 ≠ ENOMEM →
      (ButtonHandle.enable n command).2 =
        .error (.Unexpected (command 3 1 (n : Int) 0))) := by
  refine ⟨rfl, ?_, ?_, ?_⟩
  · intro h
    simp [ButtonHandle.enable, DRIVER_NUMBER, command_nr.ENABLE_INTERRUPT, h]
  · intro h
    simp [ButtonHandle.enable, DRIVER_NUMBER, command_nr.ENABLE_INTERRUPT, h,
      SUCCESS, ENOMEM]
  · intro h0 h9
    simp [ButtonHandle.enable, DRIVER_NUMBER, command_nr.ENABLE_INTERRUPT,
      h0, h9]

/-- Witness for C5: a kernel returning `SUCCESS` makes enable succeed, one
returning `ENOMEM` surfaces `ActivationFailed`, and one returning 5 surfaces
`Unexpected 5`. -/
theorem enable_syscall_and_error_mapping_witness :
    (ButtonHandle.enable 0 (fun _ _ _ _ => 0)).2 = .ok ⟨0⟩ ∧
    (ButtonHandle.enable 0 (fun _ _ _ _ => -9)).2 =
      .error (.Expected .ActivationFailed) ∧
    (ButtonHandle.enable 0 (fun _ _ _ _ => 5)).2 =
      .error (.Unexpected 5) :=
  ⟨(enable_syscall_and_error_mapping 0 (fun _ _ _ _ => 0)).2.1 rfl,
   (enable_syscall_and_error_mapping 0 (fun _ _ _ _ => -9)).2.2.1 rfl,
   (enable_syscall_and_error_mapping 0 (fun _ _ _ _ => 5)).2.2.2
     (by norm_num [SUCCESS]) (by norm_num [ENOMEM])⟩

/-- C6: when the popped Expectation's class differs from the class of the
call actually attempted, the dispatcher never returns to the driver — it
aborts with the `panic_wrong_call` failure — and the resulting deterministic
message names both the expected Expectation (its `Debug` rendering) and the
actual call's name. -/
theorem panic_wrong_call_aborts (k : FakeKernel) (e : ExpectedSyscall)
    (rest : List ExpectedSyscall) (c : Syscall)
    (hE : k.expectations = e :: rest)
    (hkind : c.kind ≠ e.kind) :
    dispatch k c = .error (.wrongCall e c.name) ∧
    (∃ pre mid post,
      failureMessage (.wrongCall e c.name) =
        pre ++ e.debugFmt ++ mid ++ c.name ++ post) := by
  constructor
  · unfold dispatch
    rw [hE]
    cases c <;> cases e <;>
      first
        | exact absurd rfl hkind
        | rfl
  · exact ⟨"Expected system call ", ", but ", " was called instead.", rfl⟩

/-- Witness for C6: a `command` call attempted against a `YieldWait`
Expectation aborts with the wrong-call failure naming both. -/
theorem panic_wrong_call_aborts_witness :
    dispatch (FakeKernel.mk [.YieldWait false] [] [] [])
        (.command 3 1 0 0) =
      .error (.wrongCall (.YieldWait false) (Syscall.command 3 1 0 0).name) ∧
    (∃ pre mid post,
      failureMessage
          (.wrongCall (.YieldWait false) (Syscall.command 3 1 0 0).name) =
        pre ++ (ExpectedSyscall.YieldWait false).debugFmt ++ mid ++
          (Syscall.command 3 1 0 0).name ++ post) :=
  panic_wrong_call_aborts (FakeKernel.mk [.YieldWait false] [] [] [])
    (.YieldWait false) [] (.command 3 1 0 0) rfl (by decide)

/-- C7 counterexample: the claim that `argument0`/`argument1` are carried as
`i32` is false on the code — the source declares all four `Command` fields
`u32`, so the well-formed Expectation with `argument0 = 2^31` is
representable although `2^31` lies in no `i32`, while the `i32` value `-1`
lies in no `u32` field. -/
theorem command_args_not_i32 :
    (ExpectedSyscall.Command 3 1 (2 ^ 31) 0 none).wf ∧
    ¬ i32Range ((2 : Int) ^ 31) ∧
    i32Range (-1) ∧
    ¬ u32Range (-1) := by
  refine ⟨?_, ?_, ?_, ?_⟩ <;>
    norm_num [ExpectedSyscall.wf, u32Range, i32Range]

/-- C7 amended: all four fields of a `Command` Expectation (`driver_id`,
`command_id`, `argument0`, `argument1`) are unsigned 32-bit (`u32`) — a
value is representable exactly when each field is below `2^32` — and the
`u32` value set does not coincide with the `i32` value set the spec's ABI
declares for `argument0`/`argument1`. -/
theorem command_fields_are_u32 (d c a0 a1 : Nat)
    (ov : Option CommandReturn) :
    ((ExpectedSyscall.Command d c a0 a1 ov).wf ↔
      (d < 2 ^ 32 ∧ c < 2 ^ 32 ∧ a0 < 2 ^ 32 ∧ a1 < 2 ^ 32)) ∧
    ¬ (∀ n : Int, u32Range n ↔ i32Range n) := by
  constructor
  · unfold ExpectedSyscall.wf u32Range
    constructor
    · rintro ⟨⟨-, h1⟩, ⟨-, h2⟩, ⟨-, h3⟩, ⟨-, h4⟩⟩
      exact ⟨by exact_mod_cast h1, by exact_mod_cast h2,
        by exact_mod_cast h3, by exact_mod_cast h4⟩
    · rintro ⟨h1, h2, h3, h4⟩
      exact ⟨⟨by positivity, by exact_mod_cast h1⟩,
        ⟨by positivity, by exact_mod_cast h2⟩,
        ⟨by positivity, by exact_mod_cast h3⟩,
        ⟨by positivity, by exact_mod_cast h4⟩⟩
  · intro hAll
    have h := (hAll ((2 : Int) ^ 31)).1 ⟨by norm_num, by norm_num⟩
    unfold i32Range at h
    omega

/-- C8: the button callback registered by `Buttons::with_callback` converts
the raw upcall `state` argument through `ButtonState::from`, so the driver's
callback observes `state = 1` as `Pressed` and `state = 0` as `Released`,
with the button number passed through unchanged. -/
theorem button_callback_state_mapping (n : Nat) :
    button_callback n 1 = some (n, .Pressed) ∧
    button_callback n 0 = some (n, .Released) :=
  ⟨rfl, rfl⟩

/-- C9: `Buttons::with_callback` returns
`Err(TockValue::Expected(ButtonsError::NotSupported))` whenever the COUNT
command returns a value less than or equal to 1 — the `subscribe` syscall is
then never issued (a system reporting exactly one button is rejected) — and
only when the count is at least 2 does it proceed to subscribe. -/
theorem with_callback_count_guard (command_count subscribe_return : Int) :
    (command_count ≤ 1 →
      Buttons.with_callback command_count subscribe_return =
        (false, .error (.Expected .NotSupported))) ∧
    (2 ≤ command_count →
      (Buttons.with_callback command_count subscribe_return).1 = true) := by
  constructor
  · intro h
    simp [Buttons.with_callback, h]
  · intro h
    have h' : ¬ command_count ≤ 1 := by omega
    simp [Buttons.with_callback, h']

/-- Witness for C9: a kernel reporting exactly one button is rejected with
`NotSupported` and no subscribe is issued; with two buttons the subscribe
call is issued. -/
theorem with_callback_count_guard_witness :
    Buttons.with_callback 1 0 = (false, .error (.Expected .NotSupported)) ∧
    (Buttons.with_callback 2 0).1 = true :=
  ⟨(with_callback_count_guard 1 0).1 (by norm_num),
   (with_callback_count_guard 2 0).2 (by norm_num)⟩

/-- C10: `ButtonState::from` is total only on 0 (`Released`) and 1
(`Pressed`) and panics (`unreachable!`, embedded as `none`) on every other
input; consequently `Button::read`, which converts the READ command's result
unguarded, panics whenever the kernel returns any `isize` other than 0
or 1. -/
theorem from_usize_partial_and_read_panics (s : Nat) (b : Button)
    (command : Nat → Nat → Int → Int → Int)
    (hlo : -(2 ^ 63) ≤ command 3 3 (b.button_num : Int) 0)
    (hhi : command 3 3 (b.button_num : Int) 0 < 2 ^ 63)
    (h0 : command 3 3 (b.button_num : Int) 0 ≠ 0)
    (h1 : command 3 3 (b.button_num : Int) 0 ≠ 1) :
    ((ButtonState.fromUsize s).isSome ↔ (s = 0 ∨ s = 1)) ∧
    Button.read b command = none := by
  constructor
  · match s with
    | 0 => simp [ButtonState.fromUsize]
    | 1 => simp [ButtonState.fromUsize]
    | s + 2 => simp [ButtonState.fromUsize]
  · unfold Button.read usizeOfIsize DRIVER_NUMBER command_nr.READ
    have hne : ((command 3 3 (b.button_num : Int) 0 % (2 : Int) ^ 64).toNat
        ≠ 0) ∧
        ((command 3 3 (b.button_num : Int) 0 % (2 : Int) ^ 64).toNat ≠ 1) :=
      by omega
    match hm : (command 3 3 (b.button_num : Int) 0 % (2 : Int) ^ 64).toNat
      with
    | 0 => exact absurd hm hne.1
    | 1 => exact absurd hm hne.2
    | m + 2 => simp [ButtonState.fromUsize]

/-- Witness for C10: input 5 is not 0 or 1 so the conversion has no value,
and a kernel answering 2 to READ makes `Button::read` panic. -/
theorem from_usize_partial_and_read_panics_witness :
    ((ButtonState.fromUsize 5).isSome ↔ ((5 : Nat) = 0 ∨ (5 : Nat) = 1)) ∧
    Button.read ⟨0⟩ (fun _ _ _ _ => 2) = none :=
  from_usize_partial_and_read_panics 5 ⟨0⟩ (fun _ _ _ _ => 2)
    (by norm_num) (by norm_num) (by norm_num) (by norm_num)

/-- Witness for C7 (amended): the concrete Expectation
`Command(3, 1, 2, 0, None)` is well-formed exactly because its fields are
below `2^32`, and the `u32` and `i32` value sets differ. -/
theorem command_fields_are_u32_witness :
    ((ExpectedSyscall.Command 3 1 2 0 none).wf ↔
      ((3 : Nat) < 2 ^ 32 ∧ (1 : Nat) < 2 ^ 32 ∧ (2 : Nat) < 2 ^ 32 ∧
        (0 : Nat) < 2 ^ 32)) ∧
    ¬ (∀ n : Int, u32Range n ↔ i32Range n) :=
  command_fields_are_u32 3 1 2 0 none
